import Mathlib

/-
Verification of the playback-engine abstraction (Html5 engine facade and
NativeAdapter media-source adapter) against its natural-language
specification.  The development is a shallow embedding: the data model and
the operations of src/src/engines/html5/html5.js are translated into
executable Lean definitions (stateful code becomes explicit state passing;
the one-shot platform signal listeners become an explicit listener registry
with a defunctionalised continuation type; promises become handle ids), and
the spec sentences are settled as theorems about those definitions.
-/

namespace Playkit

/-- Media times are modelled as integers (the claims do not depend on
fractional time values). -/
abbrev Time := Int

/-- The reported duration of the sink: a finite value or the unbounded
value Infinity. -/
inductive VDuration
  | fin (t : Time)
  | infinite
deriving DecidableEq, Repr

/-- One entry of a TimeRanges object of the sink (seekable / buffered). -/
structure TimeRange where
  rangeStart : Time
  rangeEnd : Time
deriving DecidableEq, Repr

/-- The two platform cue shapes the cue-change handler distinguishes:
window.VTTCue instances (pushed as they are) and plain window.TextTrackCue
instances (wrapped into the canonical Cue form). -/
inductive PlatformCue
  | vtt (startTime endTime : Time) (text : String)
  | textTrackCue (startTime endTime : Time) (text : String)
deriving DecidableEq, Repr

/-- Modelled from the spec: the canonical Cue value object (track/vtt-cue
is not included under src/); per the spec a Cue is the shape
startTime, endTime, text. -/
structure Cue where
  startTime : Time
  endTime : Time
  text : String
deriving DecidableEq, Repr

/-- The mode of a platform text track. -/
inductive TrackMode
  | disabled
  | hidden
  | showing
deriving DecidableEq, Repr

/-- A platform video track entry of the sink. -/
structure NativeVideoTrack where
  id : String := ""
  label : String := ""
  language : String := ""
  selected : Bool := false
deriving DecidableEq, Repr

/-- A platform audio track entry of the sink. -/
structure NativeAudioTrack where
  id : String := ""
  label : String := ""
  language : String := ""
  enabled : Bool := false
deriving DecidableEq, Repr

/-- A platform text track entry of the sink.  The field
cueChangeHandlerInstalled models whether oncuechange is set to the engine
handler (true) or to null (false). -/
structure NativeTextTrack where
  kind : String := ""
  label : String := ""
  language : String := ""
  mode : TrackMode := TrackMode.disabled
  activeCues : List PlatformCue := []
  cueChangeHandlerInstalled : Bool := false
deriving DecidableEq, Repr

/-- The platform sink (HTMLVideoElement) capability surface used by the
engine.  loadCount instruments how many times the platform load() call has
been issued on the sink. -/
structure VideoElement where
  src : String := ""
  currentTime : Time := 0
  paused : Bool := true
  duration : VDuration := VDuration.fin 0
  seekable : List TimeRange := []
  buffered : List TimeRange := []
  videoTracks : List NativeVideoTrack := []
  audioTracks : List NativeAudioTrack := []
  textTracks : List NativeTextTrack := []
  offsetWidth : Time := 0
  offsetHeight : Time := 0
  loadCount : Nat := 0
deriving DecidableEq, Repr

/-- A source descriptor. -/
structure Source where
  id : String := ""
  url : String := ""
  mimetype : String := ""
  bandwidth : Time := 0
  width : Time := 0
  height : Time := 0
deriving DecidableEq, Repr

/-- Modelled from the spec: the Track classes (track/video-track.js,
track/audio-track.js, track/text-track.js are not included under src/);
per the spec a track carries index, active, label, language plus per-type
fields.  The instanceof checks of the adapter are modelled as matching on
the corresponding variant of TrackObj. -/
structure VideoTrackData where
  index : Nat
  id : String := ""
  bandwidth : Time := 0
  width : Time := 0
  height : Time := 0
  active : Bool := false
deriving DecidableEq, Repr

/-- Modelled from the spec: the audio track value object, see
VideoTrackData. -/
structure AudioTrackData where
  index : Nat
  id : String := ""
  label : String := ""
  language : String := ""
  active : Bool := false
deriving DecidableEq, Repr

/-- Modelled from the spec: the text track value object, see
VideoTrackData; it adds the kind field. -/
structure TextTrackData where
  index : Nat
  kind : String := ""
  label : String := ""
  language : String := ""
  active : Bool := false
deriving DecidableEq, Repr

/-- A track argument object, one variant per track class; an instanceof
check of the source corresponds to matching one variant. -/
inductive TrackObj
  | video (vt : VideoTrackData)
  | audio (a : AudioTrackData)
  | text (tt : TextTrackData)
deriving DecidableEq, Repr

/-- The index field of a track argument object. -/
def TrackObj.index : TrackObj → Nat
  | TrackObj.video vt => vt.index
  | TrackObj.audio a => a.index
  | TrackObj.text tt => tt.index

/-- The semantic events the adapter emits (abr-mode-changed carries the
mode string manual or auto). -/
inductive EngineEvent
  | videoTrackChanged (t : TrackObj)
  | audioTrackChanged (t : TrackObj)
  | textTrackChanged (t : TrackObj)
  | abrModeChanged (mode : String)
  | textCueChanged (cues : List Cue)
deriving DecidableEq, Repr

/-- The one-shot platform signals the adapter listens to. -/
inductive SignalName
  | loadedData
  | errorSignal
  | durationChange
  | seeked
deriving DecidableEq, Repr

/-- A DRM protocol collaborator: canPlay reports whether the protocol
supports a given list of DRM descriptors. -/
structure DrmProtocol where
  name : String
  canPlay : List String → Bool

namespace NativeAdapter

/-- NativeAdapter.canPlayDrm: iterate the ordered protocol list; the first
protocol reporting support is stored as the bound protocol and the loop
breaks; the returned flag says whether any protocol matched.  The state
threaded through is the previously bound protocol (the static
NativeAdapter.drmProtocol field); when no protocol matches it is returned
unchanged. -/
def canPlayDrm (protocols : List DrmProtocol) (drmData : List String)
    (bound : Option DrmProtocol) : Bool × Option DrmProtocol :=
  match protocols with
  | [] => (false, bound)
  | p :: ps =>
    if p.canPlay drmData then (true, some p)
    else canPlayDrm ps drmData bound

end NativeAdapter

end Playkit

namespace Playkit

/-- Defunctionalised one-shot listener continuations: the closures the
source registers with EventManager.listenOnce, with their captured
variables as constructor arguments. -/
inductive PendingK
  | loadResolve
  | loadReject
  | switchLoadedData (capturedTime : Time) (capturedPaused : Bool) (vt : VideoTrackData)
  | switchDurationChange (capturedTime : Time)
  | switchSeekedAndroid (capturedPaused : Bool) (vt : VideoTrackData)
  | switchSeekedOther (vt : VideoTrackData)
deriving DecidableEq, Repr

/-- The NativeAdapter session state: the sink, the bound source object, the
progressive source list, the memoized load handle (loadPromise with
nextHandleId instrumenting promise identity) and the registry of pending
one-shot signal listeners in registration order. -/
structure NativeAdapterState where
  videoElement : VideoElement
  sourceObj : Option Source := none
  progressiveSources : List Source := []
  loadPromise : Option Nat := none
  nextHandleId : Nat := 0
  listeners : List (SignalName × PendingK) := []
deriving DecidableEq, Repr

/-- Observable actions of a run, in order: sink interactions, observed
platform signals and emitted semantic events. -/
inductive Act
  | setSrc (url : String)
  | setCurrentTime (t : Time)
  | callPlay
  | callPause
  | platformLoad
  | adapterLoadCall
  | signalObserved (s : SignalName)
  | setTrackMode (i : Nat) (m : TrackMode)
  | removeCueSub
  | addCueSub (i : Nat)
  | emit (e : EngineEvent)
deriving DecidableEq, Repr

/-- Sink semantics: a seek sets the current time. -/
def elSetCurrentTime (t : Time) (el : VideoElement) : VideoElement :=
  { el with currentTime := t }

/-- Sink semantics: play() resumes, the sink is no longer paused. -/
def elPlay (el : VideoElement) : VideoElement :=
  { el with paused := false }

/-- Sink semantics: pause() pauses the sink. -/
def elPause (el : VideoElement) : VideoElement :=
  { el with paused := true }

/-- Sink semantics: binding a new source URL resets the sink to a paused
state at position zero until play() is called again (the assumption the
source restoration logic is built on). -/
def elSetSrc (url : String) (el : VideoElement) : VideoElement :=
  { el with src := url, paused := true, currentTime := 0 }

/-- Sink semantics: the platform load() call (instrumented by a counter).  -/
def elLoad (el : VideoElement) : VideoElement :=
  { el with loadCount := el.loadCount + 1 }

namespace NativeAdapter

/-- NativeAdapter.isLive: live iff the reported duration is Infinity. -/
def isLive (st : NativeAdapterState) : Bool :=
  st.videoElement.duration == VDuration.infinite

/-- NativeAdapter getLiveEdge: the end of the last seekable range when
seekable ranges exist, else the end of the last buffered range when
buffered ranges exist, else the reported duration. -/
def getLiveEdge (st : NativeAdapterState) : VDuration :=
  match st.videoElement.seekable.getLast? with
  | some r => VDuration.fin r.rangeEnd
  | none =>
    match st.videoElement.buffered.getLast? with
    | some r => VDuration.fin r.rangeEnd
    | none => st.videoElement.duration

/-- Modelled from the spec: the duration getter of BaseMediaSourceAdapter
(base-media-source-adapter.js is not included under src/); per the spec it
returns the raw reported duration of the sink. -/
def superDuration (el : VideoElement) : VDuration :=
  el.duration

/-- NativeAdapter duration getter: the live edge while live, else the raw
reported duration of the base class. -/
def duration (st : NativeAdapterState) : VDuration :=
  if isLive st then getLiveEdge st else superDuration st.videoElement

/-- NativeAdapter isProgressivePlayback: the bound source is progressive
iff its mimetype is the single progressive container type video/mp4. -/
def isProgressivePlayback (st : NativeAdapterState) : Bool :=
  match st.sourceObj with
  | some s => s.mimetype == "video/mp4"
  | none => false

end NativeAdapter

end Playkit

namespace Playkit

/-- The resolution area used to compare progressive variants. -/
def resArea (s : Source) : Time :=
  s.width * s.height

/-- The highest-resolution source of a list (first one on ties). -/
def pickMaxRes : List Source → Option Source
  | [] => none
  | s :: ss =>
    match pickMaxRes ss with
    | none => some s
    | some b => if resArea b > resArea s then some b else some s

/-- The lowest-resolution source of a list (first one on ties). -/
def pickMinRes : List Source → Option Source
  | [] => none
  | s :: ss =>
    match pickMinRes ss with
    | none => some s
    | some b => if resArea b < resArea s then some b else some s

/-- Modelled from the spec: getSuitableSourceForResolution
(utils/resolution.js is not included under src/); per the spec, choose the
highest-resolution variant not exceeding the sink current width and
height; if none fit, fall back to the lowest available variant. -/
def getSuitableSourceForResolution (sources : List Source)
    (width height : Time) : Option Source :=
  let fits := sources.filter
    (fun s => decide (s.width ≤ width) && decide (s.height ≤ height))
  match pickMaxRes fits with
  | some s => some s
  | none => pickMinRes sources

namespace NativeAdapter

/-- NativeAdapter setProgressiveSource: re-resolve the best-fit variant for
the current rendered dimensions of the sink and, when one is found, bind
it as the source object. -/
def setProgressiveSource (st : NativeAdapterState) : NativeAdapterState :=
  match getSuitableSourceForResolution st.progressiveSources
      st.videoElement.offsetWidth st.videoElement.offsetHeight with
  | some s => { st with sourceObj := some s }
  | none => st

/-- First statement block of the load executor: subscribe once to the
data-loaded signal and once to the error signal. -/
def loadStep1 (st0 : NativeAdapterState) : NativeAdapterState :=
  { st0 with listeners := st0.listeners ++
    [(SignalName.loadedData, PendingK.loadResolve),
     (SignalName.errorSignal, PendingK.loadReject)] }

/-- Second statement block of the load executor: when progressive,
re-resolve the best-fit progressive variant. -/
def loadStep2 (st : NativeAdapterState) : NativeAdapterState :=
  if isProgressivePlayback st then setProgressiveSource st else st

/-- Third statement block of the load executor: when a source object with
a URL is bound, bind the sink source URL to it and emit abr-mode-changed
with mode manual (progressive) or auto (adaptive). -/
def loadStep3 (st : NativeAdapterState) : NativeAdapterState × List EngineEvent :=
  match st.sourceObj with
  | some s =>
    if s.url ≠ "" then
      ({ st with videoElement := elSetSrc s.url st.videoElement },
       [EngineEvent.abrModeChanged
          (if isProgressivePlayback st then "manual" else "auto")])
    else (st, [])
  | none => (st, [])

/-- Fourth statement block of the load executor: pre-seek to a truthy
requested start time. -/
def loadStep4 (startTime : Option Time) (st : NativeAdapterState) :
    NativeAdapterState :=
  match startTime with
  | some t =>
    if t = 0 then st
    else { st with videoElement := elSetCurrentTime t st.videoElement }
  | none => st

/-- The executor of the load promise, run synchronously on the first load
call: subscribe once to the data-loaded and error signals, re-resolve the
progressive variant when progressive, bind the sink source URL and emit
abr-mode-changed when a source with a URL is bound, optionally pre-seek to
a truthy requested start time, and trigger the platform load. -/
def loadExecutor (startTime : Option Time) (st0 : NativeAdapterState) :
    NativeAdapterState × List EngineEvent :=
  let st2 := loadStep2 (loadStep1 st0)
  let r3 := loadStep3 st2
  let st4 := loadStep4 startTime r3.1
  ({ st4 with videoElement := elLoad st4.videoElement }, r3.2)

/-- The result of a load call: the handle identifying the returned pending
promise, the adapter state after the call, and the events emitted by the
call. -/
structure LoadResult where
  handle : Nat
  state : NativeAdapterState
  emitted : List EngineEvent
deriving DecidableEq, Repr

/-- NativeAdapter.load: memoized — when a load promise already exists it is
returned unchanged and nothing else happens; on the first call a fresh
promise handle is created and the executor runs. -/
def load (startTime : Option Time) (st : NativeAdapterState) : LoadResult :=
  match st.loadPromise with
  | some h => ⟨h, st, []⟩
  | none =>
    let h := st.nextHandleId
    let r := loadExecutor startTime st
    ⟨h, { r.1 with loadPromise := some h, nextHandleId := h + 1 }, r.2⟩

end NativeAdapter

/-- Update the element at position i of a list in place (the model of a
mutation of one entry of a platform track list). -/
def updateAt {α : Type} : Nat → (α → α) → List α → List α
  | _, _, [] => []
  | 0, f, x :: xs => f x :: xs
  | n + 1, f, x :: xs => x :: updateAt n f xs

/-- Modelled from the spec: BaseMediaSourceAdapter onTrackChanged
(base-media-source-adapter.js is not included under src/); per the spec
the adapter dispatches the matching track-changed semantic event carrying
the track. -/
def onTrackChangedActs (t : TrackObj) : List Act :=
  match t with
  | TrackObj.video _ => [Act.emit (EngineEvent.videoTrackChanged t)]
  | TrackObj.audio _ => [Act.emit (EngineEvent.audioTrackChanged t)]
  | TrackObj.text _ => [Act.emit (EngineEvent.textTrackChanged t)]

namespace NativeAdapter

/-- NativeAdapter disableVideoTracks: set selected to false on every
platform video track. -/
def disableVideoTracks (el : VideoElement) : VideoElement :=
  { el with videoTracks := el.videoTracks.map (fun x => { x with selected := false }) }

/-- NativeAdapter disableAudioTracks: set enabled to false on every
platform audio track. -/
def disableAudioTracks (el : VideoElement) : VideoElement :=
  { el with audioTracks := el.audioTracks.map (fun x => { x with enabled := false }) }

/-- NativeAdapter disableTextTracks: set mode to disabled on every
platform text track. -/
def disableTextTracks (el : VideoElement) : VideoElement :=
  { el with textTracks := el.textTracks.map (fun x => { x with mode := TrackMode.disabled }) }

/-- NativeAdapter selectProgressiveVideoTrack: for a video track argument
whose index hits the progressive source list, capture the current time and
paused state of the sink, bind the chosen variant as the source object,
subscribe once to the data-loaded signal (the rest of the switch sequence
runs from that continuation), and rebind the sink source URL; otherwise a
silent no-op. -/
def selectProgressiveVideoTrack (t : TrackObj) (st : NativeAdapterState) :
    NativeAdapterState × List Act :=
  match t with
  | TrackObj.video vt =>
    match st.progressiveSources[vt.index]? with
    | some src0 =>
      let capturedTime := st.videoElement.currentTime
      let capturedPaused := st.videoElement.paused
      let st1 := { st with
        sourceObj := some src0,
        listeners := st.listeners ++
          [(SignalName.loadedData,
            PendingK.switchLoadedData capturedTime capturedPaused vt)] }
      ({ st1 with videoElement := elSetSrc src0.url st1.videoElement },
       [Act.setSrc src0.url])
    | none => (st, [])
  | _ => (st, [])

/-- NativeAdapter selectAdaptiveVideoTrack: for a video track argument
whose index hits the platform video track list, disable all video tracks,
mark the requested index selected and dispatch video-track-changed;
otherwise a silent no-op. -/
def selectAdaptiveVideoTrack (t : TrackObj) (st : NativeAdapterState) :
    NativeAdapterState × List Act :=
  match t with
  | TrackObj.video vt =>
    match st.videoElement.videoTracks[vt.index]? with
    | some _ =>
      let el1 := disableVideoTracks st.videoElement
      let el2 := { el1 with
        videoTracks := updateAt vt.index (fun x => { x with selected := true }) el1.videoTracks }
      ({ st with videoElement := el2 }, onTrackChangedActs t)
    | none => (st, [])
  | _ => (st, [])

/-- NativeAdapter.selectVideoTrack: dispatch on the progressive
classification of the bound source. -/
def selectVideoTrack (t : TrackObj) (st : NativeAdapterState) :
    NativeAdapterState × List Act :=
  if isProgressivePlayback st then selectProgressiveVideoTrack t st
  else selectAdaptiveVideoTrack t st

/-- NativeAdapter.selectAudioTrack: for an audio track argument whose
index hits the platform audio track list, disable all audio tracks, enable
the requested index and dispatch audio-track-changed; otherwise a silent
no-op. -/
def selectAudioTrack (t : TrackObj) (st : NativeAdapterState) :
    NativeAdapterState × List Act :=
  match t with
  | TrackObj.audio a =>
    match st.videoElement.audioTracks[a.index]? with
    | some _ =>
      let el1 := disableAudioTracks st.videoElement
      let el2 := { el1 with
        audioTracks := updateAt a.index (fun x => { x with enabled := true }) el1.audioTracks }
      ({ st with videoElement := el2 }, onTrackChangedActs t)
    | none => (st, [])
  | _ => (st, [])

/-- NativeAdapter.selectTextTrack: accepted only for a text track argument
of kind subtitles or captions whose index hits the platform text track
list; then disable all text tracks, set the requested index to the hidden
mode and dispatch text-track-changed; otherwise a silent no-op. -/
def selectTextTrack (t : TrackObj) (st : NativeAdapterState) :
    NativeAdapterState × List Act :=
  match t with
  | TrackObj.text tt =>
    if tt.kind == "subtitles" || tt.kind == "captions" then
      match st.videoElement.textTracks[tt.index]? with
      | some _ =>
        let el1 := disableTextTracks st.videoElement
        let el2 := { el1 with
          textTracks := updateAt tt.index (fun x => { x with mode := TrackMode.hidden }) el1.textTracks }
        ({ st with videoElement := el2 },
         Act.setTrackMode tt.index TrackMode.hidden :: onTrackChangedActs t)
      | none => (st, [])
    else (st, [])
  | _ => (st, [])

/-- NativeAdapter hideTextTrack: disable all text tracks. -/
def hideTextTrack (st : NativeAdapterState) : NativeAdapterState :=
  { st with videoElement := disableTextTracks st.videoElement }

end NativeAdapter

/-- Remove and return the first pending one-shot listener for a signal
(EventManager.listenOnce semantics: a listener fires once and is gone). -/
def takeListener (s : SignalName) :
    List (SignalName × PendingK) → Option PendingK × List (SignalName × PendingK)
  | [] => (none, [])
  | (s0, k) :: rest =>
    if s0 = s then (some k, rest)
    else
      let r := takeListener s rest
      (r.1, (s0, k) :: r.2)

namespace NativeAdapter

/-- Run a pending one-shot continuation of the progressive switch
sequence.  android tells whether the environment browser is the Android
Browser family (the platform quirk fork of the data-loaded handler).  The
data-loaded continuation on Android registers the duration-change and
seeked continuations and starts playback; elsewhere it registers the
seeked continuation, restores the captured position and resumes playback
when the sink was not paused before the switch.  The seeked continuations
dispatch video-track-changed, the Android one also re-pauses when the sink
was paused before the switch. -/
def runPendingK (android : Bool) (k : PendingK) (st : NativeAdapterState) :
    NativeAdapterState × List Act :=
  match k with
  | PendingK.switchLoadedData capturedTime capturedPaused vt =>
    if android then
      let st1 := { st with listeners := st.listeners ++
        [(SignalName.durationChange, PendingK.switchDurationChange capturedTime),
         (SignalName.seeked, PendingK.switchSeekedAndroid capturedPaused vt)] }
      ({ st1 with videoElement := elPlay st1.videoElement }, [Act.callPlay])
    else
      let st1 := { st with listeners := st.listeners ++
        [(SignalName.seeked, PendingK.switchSeekedOther vt)] }
      let st2 := { st1 with videoElement := elSetCurrentTime capturedTime st1.videoElement }
      if capturedPaused then (st2, [Act.setCurrentTime capturedTime])
      else ({ st2 with videoElement := elPlay st2.videoElement },
        [Act.setCurrentTime capturedTime, Act.callPlay])
  | PendingK.switchDurationChange capturedTime =>
    ({ st with videoElement := elSetCurrentTime capturedTime st.videoElement },
     [Act.setCurrentTime capturedTime])
  | PendingK.switchSeekedAndroid capturedPaused vt =>
    if capturedPaused then
      ({ st with videoElement := elPause st.videoElement },
       onTrackChangedActs (TrackObj.video vt) ++ [Act.callPause])
    else (st, onTrackChangedActs (TrackObj.video vt))
  | PendingK.switchSeekedOther vt => (st, onTrackChangedActs (TrackObj.video vt))
  | PendingK.loadResolve => (st, [])
  | PendingK.loadReject => (st, [])

end NativeAdapter

/-- The platform fires a signal: the first pending one-shot listener for
it (if any) is removed and its continuation runs; the trace records the
observed signal in any case. -/
def fireSignal (android : Bool) (s : SignalName) (st : NativeAdapterState) :
    NativeAdapterState × List Act :=
  match takeListener s st.listeners with
  | (some k, rest) =>
    let r := NativeAdapter.runPendingK android k { st with listeners := rest }
    (r.1, Act.signalObserved s :: r.2)
  | (none, _) => (st, [Act.signalObserved s])

/-- A full run of the progressive video track switch: the select call
followed by the natural platform signal order data-loaded, then
duration-change, then seeked. -/
def progressiveSwitchRun (android : Bool) (t : TrackObj)
    (st : NativeAdapterState) : NativeAdapterState × List Act :=
  let r1 := NativeAdapter.selectProgressiveVideoTrack t st
  let r2 := fireSignal android SignalName.loadedData r1.1
  let r3 := fireSignal android SignalName.durationChange r2.1
  let r4 := fireSignal android SignalName.seeked r3.1
  (r4.1, r1.2 ++ r2.2 ++ r3.2 ++ r4.2)

/-- Whether an action is a restoration action of the switch sequence: a
seek back to the captured position or a play or pause call. -/
def restorationAct : Act → Bool
  | Act.setCurrentTime _ => true
  | Act.callPlay => true
  | Act.callPause => true
  | _ => false

/-- Whether an action is the observed seeked confirmation signal. -/
def isSeekedSignal : Act → Bool
  | Act.signalObserved SignalName.seeked => true
  | _ => false

/-- Whether an action dispatches video-track-changed. -/
def isVideoTrackChangedEmit : Act → Bool
  | Act.emit (EngineEvent.videoTrackChanged _) => true
  | _ => false

/-- The property the claim states of the switch trace: no restoration
action occurs before the seeked confirmation signal. -/
def noRestorationBeforeSeeked (tr : List Act) : Bool :=
  (tr.takeWhile (fun a => !isSeekedSignal a)).all (fun a => !restorationAct a)

/-- Completion gating: video-track-changed is not dispatched before the
seeked confirmation signal. -/
def trackChangeGatedOnSeeked (tr : List Act) : Bool :=
  (tr.takeWhile (fun a => !isSeekedSignal a)).all (fun a => !isVideoTrackChangedEmit a)

/-- The Html5 facade state: the bound media source adapter when one
exists, the video element when no adapter is bound (when an adapter is
bound the shared element lives inside the adapter state), the
per-track-index first-shown bookkeeping (the set of indices already
recorded as shown) and the useNativeTextTrack playback configuration
flag. -/
structure Html5State where
  adapter : Option NativeAdapterState := none
  loneEl : VideoElement := {}
  showTextTrackFirstTime : List Nat := []
  useNativeTextTrack : Bool := false
deriving DecidableEq, Repr

/-- The video element of the facade (shared with the adapter when one is
bound). -/
def Html5State.el (st : Html5State) : VideoElement :=
  match st.adapter with
  | some a => a.videoElement
  | none => st.loneEl

/-- Store an updated video element back into the facade state. -/
def Html5State.setEl (st : Html5State) (el : VideoElement) : Html5State :=
  match st.adapter with
  | some a => { st with adapter := some { a with videoElement := el } }
  | none => { st with loneEl := el }

/-- Html5 getSelectedTextTrackElement: the first platform text track whose
mode is not disabled, returned as its index (JS returns the track object
by reference; the model addresses it by position). -/
def findSelectedTextTrackIdx : List NativeTextTrack → Option Nat
  | [] => none
  | trk :: rest =>
    if trk.mode ≠ TrackMode.disabled then some 0
    else (findSelectedTextTrackIdx rest).map (fun i => i + 1)

/-- Html5 getSelectedTextTrackElement on the facade state. -/
def Html5State.selectedTextTrackIdx (st : Html5State) : Option Nat :=
  findSelectedTextTrackIdx st.el.textTracks

namespace Html5

/-- Html5 removeCueChangeListener: set oncuechange to null on the
currently selected text track element if one exists.  The removeCueSub
action marks the call. -/
def removeCueChangeListener (st : Html5State) : Html5State × List Act :=
  match st.selectedTextTrackIdx with
  | some i =>
    let el1 := { st.el with
      textTracks := updateAt i (fun x => { x with cueChangeHandlerInstalled := false }) st.el.textTracks }
    (st.setEl el1, [Act.removeCueSub])
  | none => (st, [Act.removeCueSub])

/-- Html5 addCueChangeListener: on the currently selected text track
element, with useNativeTextTrack set the showing mode; otherwise set the
hidden mode when the index of the track argument is already recorded as
shown and the showing mode when it is not, record the index as shown, and
install the oncuechange handler. -/
def addCueChangeListener (t : TrackObj) (st : Html5State) : Html5State × List Act :=
  match st.selectedTextTrackIdx with
  | some i =>
    if st.useNativeTextTrack then
      let el1 := { st.el with
        textTracks := updateAt i (fun x => { x with mode := TrackMode.showing }) st.el.textTracks }
      (st.setEl el1, [Act.setTrackMode i TrackMode.showing, Act.addCueSub i])
    else
      let m := if t.index ∈ st.showTextTrackFirstTime then TrackMode.hidden
               else TrackMode.showing
      let el1 := { st.el with
        textTracks := updateAt i (fun x => { x with mode := m }) st.el.textTracks }
      let st1 := st.setEl el1
      let st2 := { st1 with showTextTrackFirstTime :=
        if t.index ∈ st1.showTextTrackFirstTime then st1.showTextTrackFirstTime
        else t.index :: st1.showTextTrackFirstTime }
      let el2 := { st2.el with
        textTracks := updateAt i (fun x => { x with cueChangeHandlerInstalled := true }) st2.el.textTracks }
      (st2.setEl el2, [Act.setTrackMode i m, Act.addCueSub i])
  | none => (st, [])

/-- Html5.selectTextTrack: remove any existing cue-change subscription,
delegate the track switch to the adapter when one is bound, then install a
fresh cue-change subscription. -/
def selectTextTrack (t : TrackObj) (st : Html5State) : Html5State × List Act :=
  let r1 := removeCueChangeListener st
  let r2 :=
    match r1.1.adapter with
    | some a =>
      let ra := NativeAdapter.selectTextTrack t a
      ({ r1.1 with adapter := some ra.1 }, ra.2)
    | none => (r1.1, [])
  let r3 := addCueChangeListener t r2.1
  (r3.1, r1.2 ++ r2.2 ++ r3.2)

/-- Normalization of a platform cue into the canonical Cue form: a VTTCue
already carries startTime, endTime and text and is pushed as it is; a
plain TextTrackCue is wrapped into a new Cue from the same fields. -/
def normalizeCue : PlatformCue → Cue
  | PlatformCue.vtt s e txt => ⟨s, e, txt⟩
  | PlatformCue.textTrackCue s e txt => ⟨s, e, txt⟩

/-- Html5 onCueChange (the non-native-text-track cue-change handler): for
the originating text track, first set its mode to hidden, then collect
and normalize all currently-active platform cues and dispatch exactly one
text-cue-changed event carrying the complete set. -/
def onCueChange (i : Nat) (st : Html5State) : Html5State × List Act :=
  match st.el.textTracks[i]? with
  | some trk =>
    let el1 := { st.el with
      textTracks := updateAt i (fun x => { x with mode := TrackMode.hidden }) st.el.textTracks }
    let cues := trk.activeCues.map normalizeCue
    (st.setEl el1, [Act.setTrackMode i TrackMode.hidden,
           Act.emit (EngineEvent.textCueChanged cues)])
  | none => (st, [])

/-- The outcome of a facade load call: the handle of the adapter load
promise when an adapter is bound, else the immediately-resolved empty
result object. -/
inductive LoadOutcome
  | adapterHandle (h : Nat)
  | emptyResult
deriving DecidableEq, Repr

/-- The result of Html5.load. -/
structure FacadeLoadResult where
  state : Html5State
  trace : List Act
  outcome : LoadOutcome
deriving DecidableEq, Repr

/-- Html5.load: trigger the platform load of the video element first, then
delegate to the adapter load when an adapter is bound; with no adapter
bound resolve immediately to the empty result object. -/
def load (startTime : Option Time) (st : Html5State) : FacadeLoadResult :=
  let st1 := st.setEl (elLoad st.el)
  match st1.adapter with
  | some a =>
    let r := NativeAdapter.load startTime a
    ⟨{ st1 with adapter := some r.state },
     Act.platformLoad :: Act.adapterLoadCall :: r.emitted.map Act.emit,
     LoadOutcome.adapterHandle r.handle⟩
  | none => ⟨st1, [Act.platformLoad], LoadOutcome.emptyResult⟩

end Html5

/-! List helper lemmas about the in-place update used by the track-list
model. -/

theorem updateAt_length {α : Type} (i : Nat) (f : α → α) (l : List α) :
    (updateAt i f l).length = l.length := by
  induction l generalizing i with
  | nil => cases i <;> rfl
  | cons x xs ih => cases i with
    | zero => rfl
    | succ n => simpa [updateAt] using ih n

theorem getElem?_updateAt {α : Type} (i j : Nat) (f : α → α) (l : List α) :
    (updateAt i f l)[j]? = if i = j then l[j]?.map f else l[j]? := by
  induction l generalizing i j with
  | nil => cases i <;> cases j <;> simp [updateAt]
  | cons x xs ih =>
    cases i with
    | zero => cases j <;> simp [updateAt]
    | succ n =>
      cases j with
      | zero => simp [updateAt]
      | succ m => simpa [updateAt] using ih n m

theorem getElem?_isSome_iff {α : Type} (l : List α) (n : Nat) :
    l[n]?.isSome = true ↔ n < l.length := by
  induction l generalizing n with
  | nil => cases n <;> simp
  | cons x xs ih => cases n with
    | zero => simp
    | succ m => simpa using ih m

theorem el_setEl (st : Html5State) (el : VideoElement) :
    (st.setEl el).el = el := by
  cases h : st.adapter <;> simp [Html5State.setEl, Html5State.el, h]

end Playkit

namespace Playkit

/-- C3: canPlayDrm iterates the ordered protocol list; the result flag is
whether some protocol reports support; the first protocol reporting
support becomes the bound protocol (first-match tie-break, iteration
stops); when no protocol matches the previously bound protocol reference
is left untouched, so no protocol is bound by the call. -/
theorem canPlayDrmFirstMatch (protocols : List DrmProtocol)
    (drmData : List String) (bound : Option DrmProtocol) :
    (NativeAdapter.canPlayDrm protocols drmData bound).1
        = protocols.any (fun p => p.canPlay drmData)
    ∧ (NativeAdapter.canPlayDrm protocols drmData bound).2
        = (match protocols.find? (fun p => p.canPlay drmData) with
           | some p => some p
           | none => bound) := by
  induction protocols with
  | nil => simp [NativeAdapter.canPlayDrm]
  | cons p ps ih =>
    cases h : p.canPlay drmData with
    | true => simp [NativeAdapter.canPlayDrm, h, List.find?]
    | false => simp [NativeAdapter.canPlayDrm, h, List.find?, ih]

/-- C5: isLive holds iff the reported duration is unbounded; getLiveEdge
prefers the end of the last seekable range, else the end of the last
buffered range, else the reported duration; and the duration accessor
returns the live edge instead of the raw reported duration while live. -/
theorem liveEdgeSpec (st : NativeAdapterState) :
    (NativeAdapter.isLive st = true ↔ st.videoElement.duration = VDuration.infinite)
    ∧ (∀ r, st.videoElement.seekable.getLast? = some r →
        NativeAdapter.getLiveEdge st = VDuration.fin r.rangeEnd)
    ∧ (st.videoElement.seekable = [] →
        ∀ r, st.videoElement.buffered.getLast? = some r →
        NativeAdapter.getLiveEdge st = VDuration.fin r.rangeEnd)
    ∧ (st.videoElement.seekable = [] → st.videoElement.buffered = [] →
        NativeAdapter.getLiveEdge st = st.videoElement.duration)
    ∧ (NativeAdapter.isLive st = true →
        NativeAdapter.duration st = NativeAdapter.getLiveEdge st)
    ∧ (NativeAdapter.isLive st = false →
        NativeAdapter.duration st = NativeAdapter.superDuration st.videoElement) := by
  refine ⟨?_, ?_, ?_, ?_, ?_, ?_⟩
  · simp [NativeAdapter.isLive]
  · intro r hr
    simp [NativeAdapter.getLiveEdge, hr]
  · intro hs r hr
    simp [NativeAdapter.getLiveEdge, hs, hr]
  · intro hs hb
    simp [NativeAdapter.getLiveEdge, hs, hb]
  · intro h
    simp [NativeAdapter.duration, h]
  · intro h
    simp [NativeAdapter.duration, h]

/-- Fixture for the live-edge witness: live stream with seekable and
buffered ranges. -/
def liveFx1 : NativeAdapterState :=
  { videoElement := { duration := VDuration.infinite,
                      seekable := [⟨0, 10⟩, ⟨10, 30⟩],
                      buffered := [⟨0, 20⟩] } }

/-- Fixture for the live-edge witness: no seekable range, buffered range
present. -/
def liveFx2 : NativeAdapterState :=
  { videoElement := { duration := VDuration.infinite,
                      buffered := [⟨0, 20⟩] } }

/-- Fixture for the live-edge witness: neither seekable nor buffered
ranges. -/
def liveFx3 : NativeAdapterState :=
  { videoElement := { duration := VDuration.infinite } }

/-- Witness for C5 on the three fixtures of the spec: seekable present,
seekable empty but buffered present, both empty. -/
theorem liveEdgeSpecWitness :
    NativeAdapter.getLiveEdge liveFx1 = VDuration.fin 30
    ∧ NativeAdapter.getLiveEdge liveFx2 = VDuration.fin 20
    ∧ NativeAdapter.getLiveEdge liveFx3 = VDuration.infinite
    ∧ NativeAdapter.duration liveFx1 = NativeAdapter.getLiveEdge liveFx1 :=
  ⟨(liveEdgeSpec liveFx1).2.1 ⟨10, 30⟩ rfl,
   (liveEdgeSpec liveFx2).2.2.1 rfl ⟨0, 20⟩ rfl,
   (liveEdgeSpec liveFx3).2.2.2.1 rfl rfl,
   (liveEdgeSpec liveFx1).2.2.2.2.1 rfl⟩

theorem setProgressiveSource_videoElement (st : NativeAdapterState) :
    (NativeAdapter.setProgressiveSource st).videoElement = st.videoElement := by
  unfold NativeAdapter.setProgressiveSource
  split <;> rfl

theorem loadStep2_loadCount (st : NativeAdapterState) :
    (NativeAdapter.loadStep2 st).videoElement.loadCount
      = st.videoElement.loadCount := by
  unfold NativeAdapter.loadStep2
  split
  · rw [setProgressiveSource_videoElement]
  · rfl

theorem loadStep3_loadCount (st : NativeAdapterState) :
    (NativeAdapter.loadStep3 st).1.videoElement.loadCount
      = st.videoElement.loadCount := by
  unfold NativeAdapter.loadStep3
  split
  · split <;> rfl
  · rfl

theorem loadStep4_loadCount (t : Option Time) (st : NativeAdapterState) :
    (NativeAdapter.loadStep4 t st).videoElement.loadCount
      = st.videoElement.loadCount := by
  unfold NativeAdapter.loadStep4
  split
  · split <;> rfl
  · rfl

/-- The load executor increments the platform load counter of the sink by
exactly one. -/
theorem loadExecutor_loadCount (t : Option Time) (st : NativeAdapterState) :
    (NativeAdapter.loadExecutor t st).1.videoElement.loadCount
      = st.videoElement.loadCount + 1 := by
  show (elLoad (NativeAdapter.loadStep4 t
      (NativeAdapter.loadStep3
        (NativeAdapter.loadStep2 (NativeAdapter.loadStep1 st))).1).videoElement).loadCount
    = st.videoElement.loadCount + 1
  dsimp only [elLoad]
  rw [loadStep4_loadCount, loadStep3_loadCount, loadStep2_loadCount]
  rfl

/-- C1: the first load call creates a single pending load handle, stored
as the memoized load promise, and triggers the platform load exactly once;
every load call made while a handle exists returns that same handle with
the state untouched and no events emitted (coalescing, no new work). -/
theorem nativeLoadMemoized (t1 t2 : Option Time) (st : NativeAdapterState)
    (h : st.loadPromise = none) :
    ((NativeAdapter.load t1 st).state.loadPromise = some (NativeAdapter.load t1 st).handle)
    ∧ (NativeAdapter.load t2 (NativeAdapter.load t1 st).state
        = ⟨(NativeAdapter.load t1 st).handle, (NativeAdapter.load t1 st).state, []⟩)
    ∧ ((NativeAdapter.load t1 st).state.videoElement.loadCount
        = st.videoElement.loadCount + 1)
    ∧ (∀ (st2 : NativeAdapterState) (hh : Nat) (t3 : Option Time),
        st2.loadPromise = some hh → NativeAdapter.load t3 st2 = ⟨hh, st2, []⟩) := by
  have hMem : ∀ (st2 : NativeAdapterState) (hh : Nat) (t3 : Option Time),
      st2.loadPromise = some hh → NativeAdapter.load t3 st2 = ⟨hh, st2, []⟩ := by
    intro st2 hh t3 h2
    simp [NativeAdapter.load, h2]
  have h1 : (NativeAdapter.load t1 st).state.loadPromise
      = some (NativeAdapter.load t1 st).handle := by
    simp [NativeAdapter.load, h]
  refine ⟨h1, hMem _ _ _ h1, ?_, hMem⟩
  simp [NativeAdapter.load, h, loadExecutor_loadCount]

/-- Fixture for the load witness: a fresh adapter with no pending load. -/
def loadFx : NativeAdapterState :=
  { videoElement := {},
    sourceObj := some { id := "a", url := "u-a", mimetype := "video/mp4" },
    progressiveSources := [{ id := "a", url := "u-a", mimetype := "video/mp4" }] }

/-- Witness for C1: on a fresh adapter, a second load returns the first
handle with the state untouched, and the platform load ran once. -/
theorem nativeLoadMemoizedWitness :
    NativeAdapter.load none (NativeAdapter.load none loadFx).state
      = ⟨(NativeAdapter.load none loadFx).handle, (NativeAdapter.load none loadFx).state, []⟩
    ∧ (NativeAdapter.load none loadFx).state.videoElement.loadCount = 1 :=
  ⟨(nativeLoadMemoized none none loadFx rfl).2.1,
   (nativeLoadMemoized none none loadFx rfl).2.2.1⟩

/-- Validity of a video track selection argument: the guard
selectVideoTrack checks in its active branch. -/
def validVideoSelection (t : TrackObj) (st : NativeAdapterState) : Bool :=
  match t with
  | TrackObj.video vt =>
    if NativeAdapter.isProgressivePlayback st
    then (st.progressiveSources[vt.index]?).isSome
    else (st.videoElement.videoTracks[vt.index]?).isSome
  | _ => false

/-- Validity of an audio track selection argument. -/
def validAudioSelection (t : TrackObj) (st : NativeAdapterState) : Bool :=
  match t with
  | TrackObj.audio a => (st.videoElement.audioTracks[a.index]?).isSome
  | _ => false

/-- Validity of a text track selection argument: right variant, kind in
subtitles or captions, index inside the platform text track list. -/
def validTextSelection (t : TrackObj) (st : NativeAdapterState) : Bool :=
  match t with
  | TrackObj.text tt =>
    (tt.kind == "subtitles" || tt.kind == "captions")
      && (st.videoElement.textTracks[tt.index]?).isSome
  | _ => false

/-- C4: a track-selection call whose argument is not of the expected track
type, has an index outside the current platform track-list bounds, or (for
text) a kind outside subtitles and captions, is a silent no-op: the state
is returned unchanged and no action or event is produced. -/
theorem invalidSelectionNoop (t : TrackObj) (st : NativeAdapterState) :
    (validVideoSelection t st = false →
        NativeAdapter.selectVideoTrack t st = (st, []))
    ∧ (validAudioSelection t st = false →
        NativeAdapter.selectAudioTrack t st = (st, []))
    ∧ (validTextSelection t st = false →
        NativeAdapter.selectTextTrack t st = (st, [])) := by
  refine ⟨?_, ?_, ?_⟩
  · intro h
    cases t with
    | video vt =>
      by_cases hp : NativeAdapter.isProgressivePlayback st
      · rw [validVideoSelection, if_pos hp] at h
        cases hg : st.progressiveSources[vt.index]? with
        | some s => rw [hg] at h; simp at h
        | none =>
          simp [NativeAdapter.selectVideoTrack, hp,
            NativeAdapter.selectProgressiveVideoTrack, hg]
      · rw [validVideoSelection, if_neg hp] at h
        cases hg : st.videoElement.videoTracks[vt.index]? with
        | some s => rw [hg] at h; simp at h
        | none =>
          simp [NativeAdapter.selectVideoTrack, hp,
            NativeAdapter.selectAdaptiveVideoTrack, hg]
    | audio a =>
      by_cases hp : NativeAdapter.isProgressivePlayback st <;>
        simp [NativeAdapter.selectVideoTrack, hp,
          NativeAdapter.selectProgressiveVideoTrack,
          NativeAdapter.selectAdaptiveVideoTrack]
    | text tt =>
      by_cases hp : NativeAdapter.isProgressivePlayback st <;>
        simp [NativeAdapter.selectVideoTrack, hp,
          NativeAdapter.selectProgressiveVideoTrack,
          NativeAdapter.selectAdaptiveVideoTrack]
  · intro h
    cases t with
    | video vt => simp [NativeAdapter.selectAudioTrack]
    | audio a =>
      rw [validAudioSelection] at h
      cases hg : st.videoElement.audioTracks[a.index]? with
      | some s => rw [hg] at h; simp at h
      | none => simp [NativeAdapter.selectAudioTrack, hg]
    | text tt => simp [NativeAdapter.selectAudioTrack]
  · intro h
    cases t with
    | video vt => simp [NativeAdapter.selectTextTrack]
    | audio a => simp [NativeAdapter.selectTextTrack]
    | text tt =>
      rw [validTextSelection] at h
      rw [Bool.and_eq_false_iff] at h
      rcases h with h | h
      · simp [NativeAdapter.selectTextTrack, h]
      · cases hg : st.videoElement.textTracks[tt.index]? with
        | some s => rw [hg] at h; simp at h
        | none =>
          cases hk : (tt.kind == "subtitles" || tt.kind == "captions") <;>
            simp [NativeAdapter.selectTextTrack, hk, hg]

/-- Fixture for the invalid-selection witness: an adaptive adapter whose
sink has one video track, one audio track and one subtitles track. -/
def selFx : NativeAdapterState :=
  { videoElement := { videoTracks := [{ id := "v0" }],
                      audioTracks := [{ id := "a0" }],
                      textTracks := [{ kind := "subtitles" }] } }

/-- Witness for C4: an out-of-range video index, an out-of-range audio
index and a wrong text kind each leave the state unchanged with no
event. -/
theorem invalidSelectionNoopWitness :
    NativeAdapter.selectVideoTrack (TrackObj.video { index := 5 }) selFx = (selFx, [])
    ∧ NativeAdapter.selectAudioTrack (TrackObj.audio { index := 2 }) selFx = (selFx, [])
    ∧ NativeAdapter.selectTextTrack
        (TrackObj.text { index := 0, kind := "metadata" }) selFx = (selFx, []) :=
  ⟨(invalidSelectionNoop (TrackObj.video { index := 5 }) selFx).1 rfl,
   (invalidSelectionNoop (TrackObj.audio { index := 2 }) selFx).2.1 rfl,
   (invalidSelectionNoop (TrackObj.text { index := 0, kind := "metadata" }) selFx).2.2 rfl⟩

/-- Fixture for the progressive switch: a playing progressive session at
position seven with two variants, the first one bound. -/
def switchFx : NativeAdapterState :=
  { videoElement := { currentTime := 7, paused := false },
    sourceObj := some { id := "a", url := "u-a", mimetype := "video/mp4" },
    progressiveSources :=
      [{ id := "a", url := "u-a", mimetype := "video/mp4" },
       { id := "b", url := "u-b", mimetype := "video/mp4" }] }

/-- C2 counterexample: on a valid in-range progressive track switch (a
progressive session, track index one inside the two-variant list), the
run of the switch performs restoration actions (the seek back to the
captured position, and the play call restoring the playing state) before
the seeked confirmation signal, so the claim that no position or
play/pause restoration happens until the seeked signal is false on the
code. -/
theorem progressiveSwitchClaimCounterexample :
    (switchFx.progressiveSources[(1 : Nat)]?).isSome = true
    ∧ NativeAdapter.isProgressivePlayback switchFx = true
    ∧ noRestorationBeforeSeeked
        (progressiveSwitchRun false (TrackObj.video { index := 1 }) switchFx).2 = false := by
  refine ⟨rfl, rfl, ?_⟩
  rfl

/-- C2 (amended): on a valid in-range progressive track switch from an
idle listener state, the sequence captures the position and paused state
of the sink before rebinding the URL; the seek restoring the captured
position is issued after the data-loaded signal (after the further
duration-known signal on the Android platform family) and play/pause
restoration is issued with the seek (or, on Android, via an unconditional
play with the pause reasserted after the seeked confirmation); after
completion the paused state equals the pre-switch paused state and the
current time equals the captured pre-switch position, and
video-track-changed is emitted only once the seeked signal confirms the
seek. -/
theorem progressiveSwitchAmended (android : Bool) (vt : VideoTrackData)
    (st : NativeAdapterState) (src0 : Source)
    (hIdle : st.listeners = [])
    (hIdx : st.progressiveSources[vt.index]? = some src0) :
    ((progressiveSwitchRun android (TrackObj.video vt) st).1.videoElement.paused
        = st.videoElement.paused)
    ∧ ((progressiveSwitchRun android (TrackObj.video vt) st).1.videoElement.currentTime
        = st.videoElement.currentTime)
    ∧ (Act.emit (EngineEvent.videoTrackChanged (TrackObj.video vt))
        ∈ (progressiveSwitchRun android (TrackObj.video vt) st).2)
    ∧ (trackChangeGatedOnSeeked
        (progressiveSwitchRun android (TrackObj.video vt) st).2 = true) := by
  cases android <;> cases hp : st.videoElement.paused <;>
    simp [progressiveSwitchRun, NativeAdapter.selectProgressiveVideoTrack, hIdx, hIdle,
      fireSignal, takeListener, NativeAdapter.runPendingK, elSetSrc, elPlay, elPause,
      elSetCurrentTime, onTrackChangedActs, trackChangeGatedOnSeeked, isSeekedSignal,
      isVideoTrackChangedEmit, List.takeWhile, hp]

/-- Witness for C2 (amended): a paused-in switch ends paused with the
position restored; the fixture run emits video-track-changed after the
seeked confirmation. -/
theorem progressiveSwitchAmendedWitness :
    ((progressiveSwitchRun false (TrackObj.video { index := 1 }) switchFx).1.videoElement.paused
        = switchFx.videoElement.paused)
    ∧ ((progressiveSwitchRun false (TrackObj.video { index := 1 }) switchFx).1.videoElement.currentTime
        = switchFx.videoElement.currentTime)
    ∧ (trackChangeGatedOnSeeked
        (progressiveSwitchRun false (TrackObj.video { index := 1 }) switchFx).2 = true) :=
  ⟨(progressiveSwitchAmended false { index := 1 } switchFx
      { id := "b", url := "u-b", mimetype := "video/mp4" } rfl rfl).1,
   (progressiveSwitchAmended false { index := 1 } switchFx
      { id := "b", url := "u-b", mimetype := "video/mp4" } rfl rfl).2.1,
   (progressiveSwitchAmended false { index := 1 } switchFx
      { id := "b", url := "u-b", mimetype := "video/mp4" } rfl rfl).2.2.2⟩

theorem setEl_self (st : Html5State) : st.setEl st.el = st := by
  obtain ⟨ad, lone, shown, natFlag⟩ := st
  cases ad <;> rfl

theorem setEl_shown (st : Html5State) (el : VideoElement) :
    (st.setEl el).showTextTrackFirstTime = st.showTextTrackFirstTime := by
  obtain ⟨ad, lone, shown, natFlag⟩ := st
  cases ad <;> rfl

theorem setEl_useNative (st : Html5State) (el : VideoElement) :
    (st.setEl el).useNativeTextTrack = st.useNativeTextTrack := by
  obtain ⟨ad, lone, shown, natFlag⟩ := st
  cases ad <;> rfl

theorem setEl_adapter (st : Html5State) (el : VideoElement)
    (a : NativeAdapterState) (hAd : st.adapter = some a) :
    (st.setEl el).adapter = some { a with videoElement := el } := by
  obtain ⟨ad, lone, shown, natFlag⟩ := st
  obtain rfl : ad = some a := hAd
  rfl

/-- The cue-subscription removal step returns the state with some element
update that only touches oncuechange flags: every track-list position
stays populated exactly as before, and the trace is the single call
marker. -/
theorem removeCue_shape (st : Html5State) :
    ∃ el2 : VideoElement,
      Html5.removeCueChangeListener st = (st.setEl el2, [Act.removeCueSub])
      ∧ ∀ n : Nat, (el2.textTracks[n]?).isSome = ((st.el.textTracks[n]?).isSome) := by
  unfold Html5.removeCueChangeListener
  cases hj : st.selectedTextTrackIdx with
  | none =>
    refine ⟨st.el, ?_, fun n => rfl⟩
    rw [setEl_self]
  | some i =>
    refine ⟨{ st.el with
      textTracks := updateAt i (fun x => { x with cueChangeHandlerInstalled := false }) st.el.textTracks },
      rfl, fun n => ?_⟩
    show (updateAt i (fun x => { x with cueChangeHandlerInstalled := false })
        st.el.textTracks)[n]?.isSome = (st.el.textTracks[n]?).isSome
    rw [getElem?_updateAt]
    by_cases hin : i = n
    · rw [if_pos hin]
      cases st.el.textTracks[n]? <;> rfl
    · rw [if_neg hin]

/-- The facade selectTextTrack decomposes into the removal step, the
adapter switch and the fresh-subscription step, in that order. -/
theorem selectTextTrack_decompose (t : TrackObj) (st st2 : Html5State)
    (a2 : NativeAdapterState)
    (hRem : Html5.removeCueChangeListener st = (st2, [Act.removeCueSub]))
    (hA2 : st2.adapter = some a2) :
    Html5.selectTextTrack t st
      = ((Html5.addCueChangeListener t
            { st2 with adapter := some (NativeAdapter.selectTextTrack t a2).1 }).1,
         Act.removeCueSub ::
           ((NativeAdapter.selectTextTrack t a2).2
             ++ (Html5.addCueChangeListener t
                  { st2 with adapter := some (NativeAdapter.selectTextTrack t a2).1 }).2)) := by
  unfold Html5.selectTextTrack
  rw [hRem]
  simp only [hA2]
  simp

/-- After the adapter disables all text tracks and sets the requested
index to hidden, the requested index is the selected (first non-disabled)
text track. -/
theorem findSel_after_switch (l : List NativeTextTrack) (K : Nat)
    (hK : K < l.length) :
    findSelectedTextTrackIdx
      (updateAt K (fun x => { x with mode := TrackMode.hidden })
        (l.map (fun x => { x with mode := TrackMode.disabled }))) = some K := by
  induction l generalizing K with
  | nil => simp at hK
  | cons x xs ih =>
    cases K with
    | zero => simp [updateAt, findSelectedTextTrackIdx]
    | succ n =>
      have hn : n < xs.length := by simpa using hK
      simp [updateAt, findSelectedTextTrackIdx, ih n hn]

/-- The core of a valid facade text-track switch, after the
cue-subscription removal step: the adapter switch trace, the fresh
subscription trace, the final track entry at the requested index and the
final first-shown bookkeeping. -/
theorem selectTextTrackCore (st2 : Html5State) (a2 : NativeAdapterState)
    (tt : TextTrackData) (trk1 : NativeTextTrack)
    (hA2 : st2.adapter = some a2)
    (hNat : st2.useNativeTextTrack = false)
    (hKind : (tt.kind == "subtitles" || tt.kind == "captions") = true)
    (hIdx : a2.videoElement.textTracks[tt.index]? = some trk1) :
    (NativeAdapter.selectTextTrack (TrackObj.text tt) a2).2
        = [Act.setTrackMode tt.index TrackMode.hidden,
           Act.emit (EngineEvent.textTrackChanged (TrackObj.text tt))]
    ∧ (Html5.addCueChangeListener (TrackObj.text tt)
          { st2 with adapter := some (NativeAdapter.selectTextTrack (TrackObj.text tt) a2).1 }).2
        = [Act.setTrackMode tt.index
             (if tt.index ∈ st2.showTextTrackFirstTime then TrackMode.hidden
              else TrackMode.showing),
           Act.addCueSub tt.index]
    ∧ (Html5.addCueChangeListener (TrackObj.text tt)
          { st2 with adapter := some (NativeAdapter.selectTextTrack (TrackObj.text tt) a2).1 }).1.el.textTracks[tt.index]?
        = some { trk1 with
            mode := (if tt.index ∈ st2.showTextTrackFirstTime then TrackMode.hidden
                     else TrackMode.showing),
            cueChangeHandlerInstalled := true }
    ∧ (Html5.addCueChangeListener (TrackObj.text tt)
          { st2 with adapter := some (NativeAdapter.selectTextTrack (TrackObj.text tt) a2).1 }).1.showTextTrackFirstTime
        = (if tt.index ∈ st2.showTextTrackFirstTime then st2.showTextTrackFirstTime
           else tt.index :: st2.showTextTrackFirstTime) := by
  have hK : tt.index < a2.videoElement.textTracks.length := by
    rw [← getElem?_isSome_iff, hIdx]; rfl
  have e2 : NativeAdapter.selectTextTrack (TrackObj.text tt) a2
      = ({ a2 with
            videoElement := { a2.videoElement with
              textTracks := updateAt tt.index (fun x => { x with mode := TrackMode.hidden }) (a2.videoElement.textTracks.map (fun x => { x with mode := TrackMode.disabled })) } },
         [Act.setTrackMode tt.index TrackMode.hidden,
          Act.emit (EngineEvent.textTrackChanged (TrackObj.text tt))]) := by
    simp [NativeAdapter.selectTextTrack, hKind, hIdx,
      NativeAdapter.disableTextTracks, onTrackChangedActs]
  have hSel : findSelectedTextTrackIdx
      (updateAt tt.index (fun x => { x with mode := TrackMode.hidden })
        (a2.videoElement.textTracks.map (fun x => { x with mode := TrackMode.disabled })))
      = some tt.index := findSel_after_switch _ _ hK
  rw [e2]
  obtain ⟨ad2, lone2, shown2, nat2⟩ := st2
  obtain rfl : nat2 = false := hNat
  refine ⟨rfl, ?_, ?_, ?_⟩
  · simp [Html5.addCueChangeListener, Html5State.selectedTextTrackIdx,
      Html5State.el, Html5State.setEl, hSel, TrackObj.index]
  · simp only [Html5.addCueChangeListener, Html5State.selectedTextTrackIdx,
      Html5State.el, Html5State.setEl, hSel]
    simp only [Bool.false_eq_true, if_false]
    simp [Html5State.el, getElem?_updateAt, List.getElem?_map, hIdx, TrackObj.index]
  · simp [Html5.addCueChangeListener, Html5State.selectedTextTrackIdx,
      Html5State.el, Html5State.setEl, hSel, TrackObj.index]

/-- The full computation of a valid facade selectTextTrack call with a
bound adapter in the non-native-text-track configuration: the exact trace,
the final platform track entry at the requested index and the final
first-shown bookkeeping. -/
theorem selectTextTrackRunLemma (st : Html5State) (a : NativeAdapterState)
    (tt : TextTrackData) (trk : NativeTextTrack)
    (hAd : st.adapter = some a)
    (hKind : (tt.kind == "subtitles" || tt.kind == "captions") = true)
    (hIdx : a.videoElement.textTracks[tt.index]? = some trk)
    (hNat : st.useNativeTextTrack = false) :
    ((Html5.selectTextTrack (TrackObj.text tt) st).2
      = [Act.removeCueSub,
         Act.setTrackMode tt.index TrackMode.hidden,
         Act.emit (EngineEvent.textTrackChanged (TrackObj.text tt)),
         Act.setTrackMode tt.index
           (if tt.index ∈ st.showTextTrackFirstTime then TrackMode.hidden
            else TrackMode.showing),
         Act.addCueSub tt.index])
    ∧ (∃ trk2 : NativeTextTrack,
        (Html5.selectTextTrack (TrackObj.text tt) st).1.el.textTracks[tt.index]? = some trk2
        ∧ trk2.mode = (if tt.index ∈ st.showTextTrackFirstTime then TrackMode.hidden
                       else TrackMode.showing)
        ∧ trk2.cueChangeHandlerInstalled = true)
    ∧ ((Html5.selectTextTrack (TrackObj.text tt) st).1.showTextTrackFirstTime
      = if tt.index ∈ st.showTextTrackFirstTime then st.showTextTrackFirstTime
        else tt.index :: st.showTextTrackFirstTime) := by
  obtain ⟨el2, eRem, hSome⟩ := removeCue_shape st
  have hA2 : (st.setEl el2).adapter = some { a with videoElement := el2 } :=
    setEl_adapter st el2 a hAd
  have hNat2 : (st.setEl el2).useNativeTextTrack = false := by
    rw [setEl_useNative]; exact hNat
  have hShown2 : (st.setEl el2).showTextTrackFirstTime = st.showTextTrackFirstTime :=
    setEl_shown st el2
  have hElSt : st.el = a.videoElement := by
    obtain ⟨ad, lone, shown, natFlag⟩ := st
    obtain rfl : ad = some a := hAd
    rfl
  have hSome2 : (el2.textTracks[tt.index]?).isSome = true := by
    rw [hSome tt.index, hElSt, hIdx]; rfl
  obtain ⟨trk1, hIdx1⟩ : ∃ trk1 : NativeTextTrack, el2.textTracks[tt.index]? = some trk1 := by
    cases hx : el2.textTracks[tt.index]? with
    | none => rw [hx] at hSome2; exact absurd hSome2 (by simp)
    | some y => exact ⟨y, rfl⟩
  have hDec := selectTextTrack_decompose (TrackObj.text tt) st (st.setEl el2)
    { a with videoElement := el2 } eRem hA2
  obtain ⟨c1, c2, c3, c4⟩ := selectTextTrackCore (st.setEl el2)
    { a with videoElement := el2 } tt trk1 hA2 hNat2 hKind hIdx1
  rw [hDec, ← hShown2]
  refine ⟨?_, ⟨_, c3, ?_, ?_⟩, c4⟩
  · rw [c1, c2]
    rfl
  · rfl
  · rfl

/-- C6: the facade selectTextTrack performs, in this order: first the
removal of any existing cue-change subscription, then the adapter track
switch (which sets the requested track mode and dispatches
text-track-changed), and only then the installation of a fresh cue-change
subscription on the now-active track (the oncuechange handler ends up
installed on the requested track). -/
theorem facadeSelectTextTrackOrdering (st : Html5State) (a : NativeAdapterState)
    (tt : TextTrackData) (trk : NativeTextTrack)
    (hAd : st.adapter = some a)
    (hKind : (tt.kind == "subtitles" || tt.kind == "captions") = true)
    (hIdx : a.videoElement.textTracks[tt.index]? = some trk)
    (hNat : st.useNativeTextTrack = false) :
    ((Html5.selectTextTrack (TrackObj.text tt) st).2
      = [Act.removeCueSub,
         Act.setTrackMode tt.index TrackMode.hidden,
         Act.emit (EngineEvent.textTrackChanged (TrackObj.text tt)),
         Act.setTrackMode tt.index
           (if tt.index ∈ st.showTextTrackFirstTime then TrackMode.hidden
            else TrackMode.showing),
         Act.addCueSub tt.index])
    ∧ (∃ trk2 : NativeTextTrack,
        (Html5.selectTextTrack (TrackObj.text tt) st).1.el.textTracks[tt.index]? = some trk2
        ∧ trk2.cueChangeHandlerInstalled = true) := by
  obtain ⟨h1, ⟨trk2, h2a, h2b, h2c⟩, h3⟩ :=
    selectTextTrackRunLemma st a tt trk hAd hKind hIdx hNat
  exact ⟨h1, ⟨trk2, h2a, h2c⟩⟩

/-- Fixture platform text tracks for the facade witnesses. -/
def facadeFxTracks : List NativeTextTrack :=
  [{ kind := "subtitles", language := "en" }, { kind := "captions", language := "fr" }]

/-- Fixture adapter for the facade witnesses. -/
def facadeFxAdapter : NativeAdapterState :=
  { videoElement := { textTracks := facadeFxTracks } }

/-- Fixture facade state: adapter bound, nothing recorded as shown. -/
def facadeFx : Html5State :=
  { adapter := some facadeFxAdapter }

/-- Fixture facade state: adapter bound, index zero already recorded as
shown. -/
def facadeFxShown : Html5State :=
  { adapter := some facadeFxAdapter, showTextTrackFirstTime := [0] }

/-- Witness for C6: on the fixture, the call produces exactly the ordered
trace removal, switch, fresh subscription. -/
theorem facadeSelectTextTrackOrderingWitness :
    (Html5.selectTextTrack (TrackObj.text { index := 0, kind := "subtitles" }) facadeFx).2
      = [Act.removeCueSub,
         Act.setTrackMode 0 TrackMode.hidden,
         Act.emit (EngineEvent.textTrackChanged
           (TrackObj.text { index := 0, kind := "subtitles" })),
         Act.setTrackMode 0 TrackMode.showing,
         Act.addCueSub 0] :=
  (facadeSelectTextTrackOrdering facadeFx facadeFxAdapter
    { index := 0, kind := "subtitles" } { kind := "subtitles", language := "en" }
    rfl rfl rfl rfl).1

/-- C7: the per-track-index first-shown flag: a first activation of index
K (K not yet recorded) sets the showing mode on K and records K as shown;
a later activation of K (K recorded) sets the hidden mode directly and the
trace never passes through the showing mode. -/
theorem textTrackFirstShownFlag (st : Html5State) (a : NativeAdapterState)
    (tt : TextTrackData) (trk : NativeTextTrack)
    (hAd : st.adapter = some a)
    (hKind : (tt.kind == "subtitles" || tt.kind == "captions") = true)
    (hIdx : a.videoElement.textTracks[tt.index]? = some trk)
    (hNat : st.useNativeTextTrack = false) :
    (tt.index ∉ st.showTextTrackFirstTime →
        (∃ trk2 : NativeTextTrack,
            (Html5.selectTextTrack (TrackObj.text tt) st).1.el.textTracks[tt.index]? = some trk2
            ∧ trk2.mode = TrackMode.showing)
        ∧ tt.index ∈ (Html5.selectTextTrack (TrackObj.text tt) st).1.showTextTrackFirstTime
        ∧ Act.setTrackMode tt.index TrackMode.showing
            ∈ (Html5.selectTextTrack (TrackObj.text tt) st).2)
    ∧ (tt.index ∈ st.showTextTrackFirstTime →
        (∃ trk2 : NativeTextTrack,
            (Html5.selectTextTrack (TrackObj.text tt) st).1.el.textTracks[tt.index]? = some trk2
            ∧ trk2.mode = TrackMode.hidden)
        ∧ (∀ i : Nat, Act.setTrackMode i TrackMode.showing
            ∉ (Html5.selectTextTrack (TrackObj.text tt) st).2)) := by
  obtain ⟨h1, ⟨trk2, h2a, h2b, h2c⟩, h3⟩ :=
    selectTextTrackRunLemma st a tt trk hAd hKind hIdx hNat
  constructor
  · intro hmem
    rw [if_neg hmem] at h2b h3
    refine ⟨⟨trk2, h2a, h2b⟩, ?_, ?_⟩
    · rw [h3]
      exact List.mem_cons_self _ _
    · rw [h1, if_neg hmem]
      simp
  · intro hmem
    rw [if_pos hmem] at h2b
    refine ⟨⟨trk2, h2a, h2b⟩, ?_⟩
    intro i
    rw [h1, if_pos hmem]
    simp

/-- Witness for C7: a first activation of index zero ends in showing mode
with zero recorded as shown; on the fixture where zero is already
recorded, the activation ends hidden and no showing mode is set. -/
theorem textTrackFirstShownFlagWitness :
    ((∃ trk2 : NativeTextTrack,
        (Html5.selectTextTrack (TrackObj.text { index := 0, kind := "subtitles" })
          facadeFx).1.el.textTracks[(0 : Nat)]? = some trk2
        ∧ trk2.mode = TrackMode.showing)
      ∧ (0 : Nat) ∈ (Html5.selectTextTrack (TrackObj.text { index := 0, kind := "subtitles" })
          facadeFx).1.showTextTrackFirstTime
      ∧ Act.setTrackMode 0 TrackMode.showing
          ∈ (Html5.selectTextTrack (TrackObj.text { index := 0, kind := "subtitles" }) facadeFx).2)
    ∧ ((∃ trk2 : NativeTextTrack,
        (Html5.selectTextTrack (TrackObj.text { index := 0, kind := "subtitles" })
          facadeFxShown).1.el.textTracks[(0 : Nat)]? = some trk2
        ∧ trk2.mode = TrackMode.hidden)
      ∧ (∀ i : Nat, Act.setTrackMode i TrackMode.showing
          ∉ (Html5.selectTextTrack (TrackObj.text { index := 0, kind := "subtitles" })
              facadeFxShown).2)) :=
  ⟨(textTrackFirstShownFlag facadeFx facadeFxAdapter
      { index := 0, kind := "subtitles" } { kind := "subtitles", language := "en" }
      rfl rfl rfl rfl).1 (by simp [facadeFx]),
   (textTrackFirstShownFlag facadeFxShown facadeFxAdapter
      { index := 0, kind := "subtitles" } { kind := "subtitles", language := "en" }
      rfl rfl rfl rfl).2 (by simp [facadeFxShown])⟩

/-- C8: on a cue-change signal the handler collects all currently-active
platform cues, normalizes each of the two supported cue shapes to the
canonical Cue form, and emits exactly one text-cue-changed event carrying
the complete normalized active-cue set (replace semantics). -/
theorem onCueChangeBatch (st : Html5State) (i : Nat) (trk : NativeTextTrack)
    (hIdx : st.el.textTracks[i]? = some trk) :
    ((Html5.onCueChange i st).2
       = [Act.setTrackMode i TrackMode.hidden,
          Act.emit (EngineEvent.textCueChanged (trk.activeCues.map Html5.normalizeCue))])
    ∧ ((Html5.onCueChange i st).2.countP (fun a => match a with
          | Act.emit (EngineEvent.textCueChanged _) => true
          | _ => false) = 1)
    ∧ ((trk.activeCues.map Html5.normalizeCue).length = trk.activeCues.length)
    ∧ (∀ s e : Time, ∀ txt : String,
        Html5.normalizeCue (PlatformCue.vtt s e txt) = ⟨s, e, txt⟩
        ∧ Html5.normalizeCue (PlatformCue.textTrackCue s e txt) = ⟨s, e, txt⟩) := by
  have h1 : (Html5.onCueChange i st).2
      = [Act.setTrackMode i TrackMode.hidden,
         Act.emit (EngineEvent.textCueChanged (trk.activeCues.map Html5.normalizeCue))] := by
    simp [Html5.onCueChange, hIdx]
  refine ⟨h1, ?_, by simp, fun s e txt => ⟨rfl, rfl⟩⟩
  rw [h1]
  rfl

/-- Fixture for the cue-change witnesses: one enabled text track holding
three active cues of mixed platform shapes. -/
def cueFxTrack : NativeTextTrack :=
  { kind := "subtitles", mode := TrackMode.showing,
    activeCues := [PlatformCue.vtt 1 2 "one",
                   PlatformCue.textTrackCue 3 4 "two",
                   PlatformCue.vtt 5 6 "three"] }

/-- Fixture facade state for the cue-change witnesses. -/
def cueFx : Html5State :=
  { loneEl := { textTracks := [cueFxTrack] } }

/-- Witness for C8: a batch of three mixed-shape active cues yields
exactly one text-cue-changed event containing all three normalized
cues. -/
theorem onCueChangeBatchWitness :
    (Html5.onCueChange 0 cueFx).2
      = [Act.setTrackMode 0 TrackMode.hidden,
         Act.emit (EngineEvent.textCueChanged
           [⟨1, 2, "one"⟩, ⟨3, 4, "two"⟩, ⟨5, 6, "three"⟩])] :=
  (onCueChangeBatch cueFx 0 cueFxTrack rfl).1

/-- C10: every invocation of the cue-change handler sets the originating
text track to the hidden mode, and the hide is the first action, before
the batched cue collection is emitted; hence a track activated in showing
mode is hidden from its first cue-change signal on. -/
theorem onCueChangeHidesTrack (st : Html5State) (i : Nat) (trk : NativeTextTrack)
    (hIdx : st.el.textTracks[i]? = some trk) :
    ((Html5.onCueChange i st).1.el.textTracks[i]? = some { trk with mode := TrackMode.hidden })
    ∧ ((Html5.onCueChange i st).2.head? = some (Act.setTrackMode i TrackMode.hidden)) := by
  constructor
  · simp [Html5.onCueChange, hIdx, el_setEl, getElem?_updateAt]
  · simp [Html5.onCueChange, hIdx]

/-- Witness for C10: on the fixture track in showing mode, the handler
leaves the track hidden and hides it before emitting. -/
theorem onCueChangeHidesTrackWitness :
    ((Html5.onCueChange 0 cueFx).1.el.textTracks[(0 : Nat)]?
       = some { cueFxTrack with mode := TrackMode.hidden })
    ∧ ((Html5.onCueChange 0 cueFx).2.head? = some (Act.setTrackMode 0 TrackMode.hidden)) :=
  ⟨(onCueChangeHidesTrack cueFx 0 cueFxTrack rfl).1,
   (onCueChangeHidesTrack cueFx 0 cueFxTrack rfl).2⟩

/-- C9: the facade load triggers the platform load of the sink first and
then delegates to the adapter load; with no adapter bound it resolves
immediately to the empty result object, with no other effect than the
platform load. -/
theorem facadeLoadSpec (t : Option Time) (st : Html5State) :
    ((Html5.load t st).trace.head? = some Act.platformLoad)
    ∧ (st.adapter = none →
        Html5.load t st
          = ⟨st.setEl (elLoad st.el), [Act.platformLoad], Html5.LoadOutcome.emptyResult⟩)
    ∧ (∀ a : NativeAdapterState, st.adapter = some a →
        (Html5.load t st).outcome
          = Html5.LoadOutcome.adapterHandle
              (NativeAdapter.load t { a with videoElement := elLoad a.videoElement }).handle) := by
  obtain ⟨ad, lone, shown, natFlag⟩ := st
  cases ad with
  | none =>
    refine ⟨rfl, fun _ => rfl, fun a h => ?_⟩
    exact absurd h (by simp)
  | some a =>
    refine ⟨rfl, fun h => absurd h (by simp), fun a2 h => ?_⟩
    have h2 : some a = some a2 := h
    obtain rfl : a = a2 := Option.some.inj h2
    rfl

/-- Fixture facade state with a bound adapter for the load witness. -/
def loadFacadeFx : Html5State :=
  { adapter := some loadFx }

/-- Witness for C9: with no adapter the call resolves immediately to the
empty result after the platform load; with a bound adapter the outcome is
the adapter load handle. -/
theorem facadeLoadSpecWitness :
    (Html5.load none { loneEl := {} }
      = ⟨{ loneEl := { loadCount := 1 } }, [Act.platformLoad], Html5.LoadOutcome.emptyResult⟩)
    ∧ ((Html5.load none loadFacadeFx).outcome
      = Html5.LoadOutcome.adapterHandle
          (NativeAdapter.load none
            { loadFx with videoElement := elLoad loadFx.videoElement }).handle) :=
  ⟨(facadeLoadSpec none { loneEl := {} }).2.1 rfl,
   (facadeLoadSpec none loadFacadeFx).2.2 loadFx rfl⟩

end Playkit
